import Mathlib

/-!
Verification development for the CanvasMD terminal client (canvasmd.py).

The Python source is shallowly embedded: pure logic becomes Lean
functions, the curses event loop becomes a step function over an event
list, and the HTTP layer becomes an explicit environment of responses
plus a trace of issued calls.
-/

namespace CanvasMD

/-! ## Menu engine (`UI.display_menu` and its cursor helpers)

`UI._get_next_selectable(current, selectable)` is
`for i in selectable: if i > current: return i` followed by `return current`;
`UI._get_previous_selectable` iterates over `reversed(selectable)` looking for
`i < current`.  Menu indices are list positions, so they are modelled as `Nat`.
-/

def get_next_selectable (current : Nat) : List Nat → Nat
  | [] => current
  | i :: rest => if current < i then i else get_next_selectable current rest

/-- The loop body of `_get_previous_selectable`, prior to reversing. -/
def prev_selectable_aux (current : Nat) : List Nat → Nat
  | [] => current
  | i :: rest => if i < current then i else prev_selectable_aux current rest

def get_previous_selectable (current : Nat) (selectable : List Nat) : Nat :=
  prev_selectable_aux current selectable.reverse

/-- `current_row = min(selectable_indices) if selectable_indices else 0` -/
def initial_cursor (selectable : List Nat) : Nat :=
  (selectable.min?).getD 0

/-- Input events the `display_menu` loop reacts to.  `other` stands for any
key that is none of KEY_UP, KEY_DOWN, the Enter keys, or ESC (the Python loop
ignores those and redraws). -/
inductive MenuEvent where
  | up
  | down
  | confirm
  | esc
  | other
deriving DecidableEq, Repr

/-- Cursor update performed by one iteration of the `display_menu` loop for a
non-terminating event. -/
def menu_step (selectable : List Nat) (cursor : Nat) : MenuEvent → Nat
  | .up => get_previous_selectable cursor selectable
  | .down => get_next_selectable cursor selectable
  | _ => cursor

/-- The cursor of a `display_menu` session after a sequence of
non-terminating input events. -/
def cursor_after (selectable : List Nat) (events : List MenuEvent) : Nat :=
  events.foldl (menu_step selectable) (initial_cursor selectable)

/-- `display_menu` as a function of the event sequence: `some (some i)` means
the loop returned index `i` (Enter), `some none` means it returned `None`
(ESC), and `none` means the event list ran out with the loop still waiting. -/
def menu_loop (selectable : List Nat) : Nat → List MenuEvent → Option (Option Nat)
  | _, [] => none
  | cursor, e :: rest =>
    match e with
    | .confirm => some (some cursor)
    | .esc => some none
    | .up => menu_loop selectable (get_previous_selectable cursor selectable) rest
    | .down => menu_loop selectable (get_next_selectable cursor selectable) rest
    | .other => menu_loop selectable cursor rest

def display_menu (selectable : List Nat) (events : List MenuEvent) : Option (Option Nat) :=
  menu_loop selectable (initial_cursor selectable) events

/-! ## Assignment listing (`CanvasAPI.get_assignments`, `CanvasAPI.parse_date`)

`parse_date` runs `strptime(s, "%Y-%m-%dT%H:%M:%SZ")`, tags the result as UTC
and converts it to the fixed -6h offset.  `astimezone` preserves the instant,
and Python compares timezone-aware datetimes by instant, so a parsed date is
modelled by its instant: seconds since 0001-01-01T00:00:00 UTC (the proleptic
Gregorian calendar, as used by `datetime`).  A raw `due_at` value is modelled
as `Option DateStr`: `none` for JSON null / empty string (both falsy), and a
field record otherwise; `strptime`'s ValueError on out-of-range fields is the
`validDate` check. -/

structure DateStr where
  year : Nat
  month : Nat
  day : Nat
  hour : Nat
  minute : Nat
  second : Nat
deriving DecidableEq, Repr

def isLeapYear (y : Nat) : Bool :=
  (y % 4 == 0 && y % 100 != 0) || y % 400 == 0

def daysInMonth (y m : Nat) : Nat :=
  if m = 2 then (if isLeapYear y then 29 else 28)
  else if m = 4 ∨ m = 6 ∨ m = 9 ∨ m = 11 then 30
  else 31

def daysBeforeMonth (y m : Nat) : Nat :=
  (List.range (m - 1)).foldl (fun acc k => acc + daysInMonth y (k + 1)) 0

def daysBeforeYear (y : Nat) : Nat :=
  (y - 1) * 365 + (y - 1) / 4 - (y - 1) / 100 + (y - 1) / 400

def toTimestamp (d : DateStr) : Nat :=
  (daysBeforeYear d.year + daysBeforeMonth d.year d.month + (d.day - 1)) * 86400 +
    d.hour * 3600 + d.minute * 60 + d.second

/-- The field ranges `datetime.strptime` accepts for this format. -/
def validDate (d : DateStr) : Bool :=
  decide (1 ≤ d.year) && decide (d.year ≤ 9999) &&
  decide (1 ≤ d.month) && decide (d.month ≤ 12) &&
  decide (1 ≤ d.day) && decide (d.day ≤ daysInMonth d.year d.month) &&
  decide (d.hour ≤ 23) && decide (d.minute ≤ 59) && decide (d.second ≤ 59)

def parse_date : Option DateStr → Option Nat
  | none => none
  | some d => if validDate d then some (toTimestamp d) else none

structure Assignment where
  id : Nat
  name : String
  is_quiz_assignment : Bool
  due_at : Option DateStr
deriving DecidableEq, Repr

/-- `datetime.max`, the sort key stand-in for a missing due date. -/
def datetimeMax : DateStr := ⟨9999, 12, 31, 23, 59, 59⟩

/-- The Python sort key `(parse_date(due_at) is None, parse_date(due_at) or
datetime.max)`. -/
def sortKey (a : Assignment) : Bool × Nat :=
  match parse_date a.due_at with
  | none => (true, toTimestamp datetimeMax)
  | some t => (false, t)

/-- Python tuple `<=` on `(bool, datetime)` keys, with `False < True`. -/
def keyLE (x y : Bool × Nat) : Prop :=
  (x.1 = y.1 ∧ x.2 ≤ y.2) ∨ (x.1 = false ∧ y.1 = true)

instance : DecidableRel keyLE := fun x y => by
  unfold keyLE
  infer_instance

/-- The comparison `sorted` uses on filtered `(assignment, submitted)` rows. -/
def assignmentLE (x y : Assignment × Bool) : Prop :=
  keyLE (sortKey x.1) (sortKey y.1)

instance : DecidableRel assignmentLE := fun x y => by
  unfold assignmentLE
  infer_instance

instance : IsTotal (Assignment × Bool) assignmentLE :=
  ⟨fun x y => by
    unfold assignmentLE
    rcases hx : sortKey x.1 with ⟨b1, t1⟩
    rcases hy : sortKey y.1 with ⟨b2, t2⟩
    cases b1 <;> cases b2 <;> simp [keyLE] <;> omega⟩

instance : IsTrans (Assignment × Bool) assignmentLE :=
  ⟨fun x y z h1 h2 => by
    unfold assignmentLE at h1 h2 ⊢
    rcases hx : sortKey x.1 with ⟨b1, t1⟩
    rcases hy : sortKey y.1 with ⟨b2, t2⟩
    rcases hz : sortKey z.1 with ⟨b3, t3⟩
    rw [hx, hy] at h1
    rw [hy, hz] at h2
    cases b1 <;> cases b2 <;> cases b3 <;> simp_all [keyLE] <;> omega⟩

/-- The loop body of `get_assignments`: drop quiz assignments, keep rows whose
due date is absent or strictly in the future, and annotate each kept row with
`submitted` derived from the bulk submission lookup (`workflow_state ==
'submitted'`).  `subs` maps an assignment id to its `workflow_state`. -/
def keep (now : Nat) (subs : Nat → Option String) (a : Assignment) :
    Option (Assignment × Bool) :=
  if a.is_quiz_assignment then none
  else
    match parse_date a.due_at with
    | none => some (a, subs a.id == some "submitted")
    | some t => if now < t then some (a, subs a.id == some "submitted") else none

/-- `CanvasAPI.get_assignments`.  `resp` is the `(status, parsed body)` of the
assignments request, `none` when `_make_request` caught an exception.  Python
`sorted` is a stable sort by the key order, modelled by `insertionSort`. -/
def get_assignments (resp : Option (Nat × List Assignment)) (now : Nat)
    (subs : Nat → Option String) : List (Assignment × Bool) :=
  match resp with
  | none => []
  | some (status, assignments) =>
    if status = 200 then
      List.insertionSort assignmentLE (assignments.filterMap (keep now subs))
    else []

/-- The four-assignment example of the spec, with `now` = 0001-01-02 12:00. -/
def exampleNow : Nat := toTimestamp ⟨1, 1, 2, 12, 0, 0⟩

def exNoDue : Assignment := ⟨1, "nodue", false, none⟩

def exPast : Assignment := ⟨2, "past", false, some ⟨1, 1, 1, 12, 0, 0⟩⟩

def exFuture : Assignment := ⟨3, "future", false, some ⟨1, 1, 3, 12, 0, 0⟩⟩

def exQuiz : Assignment := ⟨4, "quiz", true, some ⟨1, 1, 3, 12, 0, 0⟩⟩

/-! ## Submission workflow (`CanvasAPI.submit_file_assignment` and friends)

The HTTP layer is embedded as an explicit environment (`NetEnv`) of the
responses the network would give, and each run produces a trace of the calls
it issues so that "stage N was never performed" is expressible.  A `Response`
holds the status plus the body fields the code reads with `.get`;
`json_error = some e` models `.json()` raising on a non-JSON body. -/

def API_BASE_URL : String := "https://experiencia21.tec.mx/api/v1"

structure Response where
  status : Nat
  text : String
  json_error : Option String := none
  upload_url : Option String := none
  upload_params : List (String × String) := []
  file_id : Option Nat := none
deriving DecidableEq, Repr

inductive Payload where
  | fileMeta (name : String) (size : Nat) (contentType : String)
  | submission (fileIds : List Nat)
deriving DecidableEq, Repr

/-- One observable call or dialog of the client.  `api` is a request routed
through `CanvasAPI._make_request`; `rawPost` is the direct `requests.post` of
stage 2. -/
inductive Event where
  | prompt (message : String)
  | api (method : String) (url : String) (auth : Option String) (payload : Payload)
  | rawPost (url : String) (params : List (String × String)) (fileName : String)
      (contentType : String) (auth : Option String)
deriving DecidableEq, Repr

/-- `CanvasAPI._make_request`: every call goes to `API_BASE_URL/endpoint` with
the session's `Authorization: Bearer <token>` header; a RequestException
(connection error, timeout, or `raise_for_status` on 4xx/5xx) is caught and
yields `none`.  `resp` is the ambient network's answer to this call. -/
def make_request (token method endpoint : String) (payload : Payload)
    (resp : Option Response) : Option Response × Event :=
  (resp, .api method (API_BASE_URL ++ "/" ++ endpoint) (some ("Bearer " ++ token)) payload)

/-- `os.path.basename` for slash-separated paths. -/
def basename (p : String) : String :=
  (p.splitOn "/").getLastD ""

/-- `CanvasAPI._get_content_type`: `mimetypes.guess_type` (the stdlib table,
an external collaborator, passed in as `guess`) with the octet-stream
fallback. -/
def get_content_type (guess : String → Option String) (path : String) : String :=
  match guess path with
  | none => "application/octet-stream"
  | some c => c

/-- Python truthiness of `.get('upload_url')`: `None` and `''` are falsy. -/
def truthyStr : Option String → Bool
  | none => false
  | some s => !(s == "")

/-- Python truthiness of `.get('id')`: `None` and `0` are falsy. -/
def truthyId : Option Nat → Bool
  | none => false
  | some n => !(n == 0)

def files_endpoint (course_id assignment_id : Nat) : String :=
  "courses/" ++ toString course_id ++ "/assignments/" ++ toString assignment_id ++
    "/submissions/self/files"

def submissions_endpoint (course_id assignment_id : Nat) : String :=
  "courses/" ++ toString course_id ++ "/assignments/" ++ toString assignment_id ++
    "/submissions"

/-- The ambient effects of one `submit_file_assignment` run: the file system
(size, open errors), the mimetypes table, and the network's three answers.
`stage2 = .error e` covers `requests.post` itself raising. -/
structure NetEnv where
  token : String
  file_size : Nat
  guess_type : String → Option String
  stage1 : Option Response
  file_open_error : Option String
  stage2 : Except String Response
  stage3 : Option Response

def ticketRequestEvent (env : NetEnv) (cid aid : Nat) (fp : String) : Event :=
  .api "POST" (API_BASE_URL ++ "/" ++ files_endpoint cid aid)
    (some ("Bearer " ++ env.token))
    (.fileMeta (basename fp) env.file_size (get_content_type env.guess_type fp))

def uploadPostEvent (r1 : Response) (env : NetEnv) (fp : String) : Event :=
  .rawPost (r1.upload_url.getD "") r1.upload_params (basename fp)
    (get_content_type env.guess_type fp) none

def registerEvent (env : NetEnv) (cid aid : Nat) (fid : Nat) : Event :=
  .api "POST" (API_BASE_URL ++ "/" ++ submissions_endpoint cid aid)
    (some ("Bearer " ++ env.token)) (.submission [fid])

/-- `CanvasAPI.submit_file_assignment`.  Returns the `(success, message)`
pair together with the trace of calls issued.  The `.json()`/`open`/
`requests.post` exception paths all land in the function's outer
`except Exception` and produce the generic wrapped message.  In the
diagnostic messages the repr of a parsed body is abstracted by the raw
response text. -/
def submit_file_assignment (env : NetEnv) (course_id assignment_id : Nat)
    (file_path : String) : (Bool × String) × List Event :=
  let file_params := Payload.fileMeta (basename file_path) env.file_size
    (get_content_type env.guess_type file_path)
  let (r1?, e1) := make_request env.token "POST"
    (files_endpoint course_id assignment_id) file_params env.stage1
  match r1? with
  | none =>
    ((false, "Failed to get upload URL. Status: N/A, Response: No response"), [e1])
  | some r1 =>
    if r1.status ≠ 200 then
      ((false, "Failed to get upload URL. Status: " ++ toString r1.status ++
        ", Response: " ++ r1.text), [e1])
    else
      match r1.json_error with
      | some e =>
        ((false, "An error occurred during file submission: " ++ e), [e1])
      | none =>
        if truthyStr r1.upload_url = false then
          ((false, "Upload URL not found in response. Response: " ++ r1.text), [e1])
        else
          match env.file_open_error with
          | some e =>
            ((false, "An error occurred during file submission: " ++ e), [e1])
          | none =>
            let e2 := uploadPostEvent r1 env file_path
            match env.stage2 with
            | .error e =>
              ((false, "An error occurred during file submission: " ++ e), [e1, e2])
            | .ok r2 =>
              if r2.status ≠ 201 then
                ((false, "File upload failed. Status: " ++ toString r2.status ++
                  ", Response: " ++ r2.text), [e1, e2])
              else
                match r2.json_error with
                | some e =>
                  ((false, "An error occurred during file submission: " ++ e), [e1, e2])
                | none =>
                  if truthyId r2.file_id = false then
                    ((false, "File ID not found in upload response. Response: " ++
                      r2.text), [e1, e2])
                  else
                    let fid := r2.file_id.getD 0
                    let (r3?, e3) := make_request env.token "POST"
                      (submissions_endpoint course_id assignment_id)
                      (.submission [fid]) env.stage3
                    match r3? with
                    | none =>
                      ((false, "Assignment submission failed. Status: N/A, Response: No response"),
                        [e1, e2, e3])
                    | some r3 =>
                      if r3.status ≠ 201 then
                        ((false, "Assignment submission failed. Status: " ++
                          toString r3.status ++ ", Response: " ++ r3.text),
                          [e1, e2, e3])
                      else
                        ((true, "File uploaded and assignment submitted successfully!"),
                          [e1, e2, e3])

/-! ## `CanvasApp.upload_file` (confirmation gate) and `Settings` -/

structure AssignmentRef where
  course_id : Nat
  id : Nat
  name : String

def confirm_message (file_path assignment_name : String) : String :=
  "You are about to submit the following file:\n\nFile: " ++ basename file_path ++
    "\nFor assignment: " ++ assignment_name ++
    "\n\nDo you want to proceed with the submission?"

inductive UploadOutcome where
  | noFile
  | cancelled
  | finished (success : Bool) (message : String)
deriving DecidableEq, Repr

/-- `CanvasApp.upload_file`: file-browser pick, the optional confirmation
dialog (`confirm_answer`: Enter = true, ESC = false), then the three-stage
submission. -/
def upload_file (confirm_submit : Bool) (file_pick : Option String)
    (confirm_answer : Bool) (env : NetEnv) (assignment : AssignmentRef) :
    UploadOutcome × List Event :=
  match file_pick with
  | none => (.noFile, [])
  | some fp =>
    if confirm_submit then
      if confirm_answer then
        let ((s, m), tr) := submit_file_assignment env assignment.course_id assignment.id fp
        (.finished s m, .prompt (confirm_message fp assignment.name) :: tr)
      else (.cancelled, [.prompt (confirm_message fp assignment.name)])
    else
      let ((s, m), tr) := submit_file_assignment env assignment.course_id assignment.id fp
      (.finished s m, tr)

/-- The on-disk settings file as `Settings.load_settings` finds it: absent,
unparseable JSON, or parsed with an optional `confirm_submit` value. -/
inductive SettingsFile where
  | absent
  | badJson
  | parsed (confirm_submit : Option Bool)
deriving DecidableEq, Repr

/-- `Settings.__init__` sets `confirm_submit = True` and `load_settings`
overrides it with `saved_settings.get('confirm_submit', True)` only when the
file exists and parses. -/
def load_settings : SettingsFile → Bool
  | .absent => true
  | .badJson => true
  | .parsed none => true
  | .parsed (some b) => b

def isUploadPost : Event → Bool
  | .rawPost .. => true
  | _ => false

def isRegisterCall : Event → Bool
  | .api _ _ _ (.submission _) => true
  | _ => false

/-- Spec-side reading of a diagnostic message: a `Failed("ticket")` outcome. -/
def ticketFailureMsg (m : String) : Prop :=
  ("Failed to get upload URL" : String).data <+: m.data ∨
    ("Upload URL not found in response" : String).data <+: m.data

/-- Spec-side reading of a diagnostic message: a `Failed("upload")` outcome. -/
def uploadFailureMsg (m : String) : Prop :=
  ("File upload failed" : String).data <+: m.data ∨
    ("File ID not found in upload response" : String).data <+: m.data

/-! ### Witness inputs: a concrete environment for each claim's witness. -/

def envW : NetEnv :=
  { token := "tok", file_size := 5, guess_type := fun _ => none,
    stage1 := none, file_open_error := none,
    stage2 := Except.error "nope", stage3 := none }

def r1W : Response :=
  { status := 200, text := "body1",
    upload_url := some "https://uploads.example/up",
    upload_params := [("key", "v")] }

def envOpenFail : NetEnv :=
  { token := "tok", file_size := 3, guess_type := fun _ => some "text/plain",
    stage1 := some r1W, file_open_error := some "boom",
    stage2 := Except.error "unreached", stage3 := none }

def aW : AssignmentRef := ⟨1, 2, "Essay"⟩

/-! ## Theorems -/

/-! ### Cursor lemmas -/

theorem get_next_selectable_mem_or_eq (current : Nat) (sel : List Nat) :
    get_next_selectable current sel ∈ sel ∨ get_next_selectable current sel = current := by
  induction sel with
  | nil => exact Or.inr rfl
  | cons i rest ih =>
    by_cases h : current < i
    · simp [get_next_selectable, h]
    · rcases ih with hmem | heq
      · exact Or.inl (by simp [get_next_selectable, h, hmem])
      · exact Or.inr (by simp [get_next_selectable, h, heq])

theorem prev_selectable_aux_mem_or_eq (current : Nat) (sel : List Nat) :
    prev_selectable_aux current sel ∈ sel ∨ prev_selectable_aux current sel = current := by
  induction sel with
  | nil => exact Or.inr rfl
  | cons i rest ih =>
    by_cases h : i < current
    · simp [prev_selectable_aux, h]
    · rcases ih with hmem | heq
      · exact Or.inl (by simp [prev_selectable_aux, h, hmem])
      · exact Or.inr (by simp [prev_selectable_aux, h, heq])

theorem get_previous_selectable_mem_or_eq (current : Nat) (sel : List Nat) :
    get_previous_selectable current sel ∈ sel ∨ get_previous_selectable current sel = current := by
  rcases prev_selectable_aux_mem_or_eq current sel.reverse with hmem | heq
  · exact Or.inl (List.mem_reverse.mp hmem)
  · exact Or.inr heq

theorem menu_step_mem (sel : List Nat) (cursor : Nat) (e : MenuEvent)
    (hc : cursor ∈ sel) : menu_step sel cursor e ∈ sel := by
  cases e with
  | up =>
    rcases get_previous_selectable_mem_or_eq cursor sel with h | h
    · exact h
    · simpa [menu_step, h]
  | down =>
    rcases get_next_selectable_mem_or_eq cursor sel with h | h
    · exact h
    · simpa [menu_step, h]
  | confirm => simpa [menu_step]
  | esc => simpa [menu_step]
  | other => simpa [menu_step]

theorem initial_cursor_mem (sel : List Nat) (hne : sel ≠ []) :
    initial_cursor sel ∈ sel := by
  cases hmin : sel.min? with
  | none =>
    exact absurd (List.min?_eq_none_iff.mp hmin) hne
  | some m =>
    have hm : m ∈ sel := List.min?_mem (fun a b => min_choice a b) hmin
    simpa [initial_cursor, hmin]

theorem cursor_after_mem (sel : List Nat) (hne : sel ≠ []) (events : List MenuEvent) :
    cursor_after sel events ∈ sel := by
  have : ∀ (evs : List MenuEvent) (c : Nat), c ∈ sel → evs.foldl (menu_step sel) c ∈ sel := by
    intro evs
    induction evs with
    | nil => intro c hc; simpa
    | cons e rest ih =>
      intro c hc
      exact ih _ (menu_step_mem sel c e hc)
  exact this events _ (initial_cursor_mem sel hne)

theorem menu_loop_confirm_mem (sel : List Nat) :
    ∀ (events : List MenuEvent) (c : Nat), c ∈ sel →
      ∀ i, menu_loop sel c events = some (some i) → i ∈ sel := by
  intro events
  induction events with
  | nil => intro c _ i h; simp [menu_loop] at h
  | cons e rest ih =>
    intro c hc i h
    cases e with
    | confirm =>
      simp [menu_loop] at h
      exact h ▸ hc
    | esc => simp [menu_loop] at h
    | up =>
      exact ih _ (menu_step_mem sel c .up hc) i h
    | down =>
      exact ih _ (menu_step_mem sel c .down hc) i h
    | other =>
      exact ih _ (menu_step_mem sel c .other hc) i h

/-- C2: throughout a session with non-empty selectable indices, the cursor
stays inside the selectable indices after every event, and a confirmed
index is selectable. -/
theorem claim_C2_cursor_invariant (sel : List Nat) (hne : sel ≠ []) :
    (∀ events : List MenuEvent, cursor_after sel events ∈ sel) ∧
    (∀ (events : List MenuEvent) (i : Nat),
       display_menu sel events = some (some i) → i ∈ sel) := by
  refine ⟨fun events => cursor_after_mem sel hne events, fun events i h => ?_⟩
  exact menu_loop_confirm_mem sel events _ (initial_cursor_mem sel hne) i h

theorem claim_C2_cursor_invariant_witness :
    ([0, 2, 3] : List Nat) ≠ [] ∧
      cursor_after [0, 2, 3] [.down, .down, .up] ∈ ([0, 2, 3] : List Nat) := by
  refine ⟨by decide, ?_⟩
  exact (claim_C2_cursor_invariant [0, 2, 3] (by decide)).1 [.down, .down, .up]

/-- C7: with a non-empty selectable list the initial cursor is the smallest
selectable index.  (With an empty list the Python code falls back to `0`,
which the spec leaves undefined.) -/
theorem claim_C7_initial_cursor (sel : List Nat) (hne : sel ≠ []) :
    initial_cursor sel ∈ sel ∧ ∀ i ∈ sel, initial_cursor sel ≤ i := by
  cases hmin : sel.min? with
  | none => exact absurd (List.min?_eq_none_iff.mp hmin) hne
  | some m =>
    have h := List.min?_eq_some_iff'.mp hmin
    simpa [initial_cursor, hmin] using h

theorem claim_C7_initial_cursor_witness :
    initial_cursor [3, 1, 2] ∈ ([3, 1, 2] : List Nat) ∧
      ∀ i ∈ ([3, 1, 2] : List Nat), initial_cursor [3, 1, 2] ≤ i :=
  claim_C7_initial_cursor [3, 1, 2] (by decide)

theorem get_next_selectable_eq_of_all_le (cur : Nat) (sel : List Nat)
    (h : ∀ i ∈ sel, i ≤ cur) : get_next_selectable cur sel = cur := by
  induction sel with
  | nil => rfl
  | cons i rest ih =>
    have hi : i ≤ cur := h i (by simp)
    have : ¬cur < i := Nat.not_lt.mpr hi
    simp only [get_next_selectable, if_neg this]
    exact ih fun j hj => h j (by simp [hj])

theorem get_next_selectable_least (cur : Nat) (sel : List Nat)
    (hs : List.Sorted (· < ·) sel) (hex : ∃ i, i ∈ sel ∧ cur < i) :
    get_next_selectable cur sel ∈ sel ∧ cur < get_next_selectable cur sel ∧
      ∀ j ∈ sel, cur < j → get_next_selectable cur sel ≤ j := by
  induction sel with
  | nil => rcases hex with ⟨i, hi, _⟩; cases hi
  | cons i rest ih =>
    rcases List.sorted_cons.mp hs with ⟨hlt, hrest⟩
    by_cases h : cur < i
    · refine ⟨by simp [get_next_selectable, h], by simp [get_next_selectable, h, h], ?_⟩
      intro j hj _
      simp only [get_next_selectable, if_pos h]
      rcases List.mem_cons.mp hj with rfl | hjr
      · exact Nat.le_refl j
      · exact Nat.le_of_lt (hlt j hjr)
    · have hile : i ≤ cur := Nat.not_lt.mp h
      rcases hex with ⟨i0, hi0, hcur0⟩
      rcases List.mem_cons.mp hi0 with rfl | hi0r
      · exact absurd hcur0 h
      · rcases ih hrest ⟨i0, hi0r, hcur0⟩ with ⟨hmem, hgt, hleast⟩
        refine ⟨?_, ?_, ?_⟩
        · simp only [get_next_selectable, if_neg h]
          exact List.mem_cons_of_mem i hmem
        · simpa only [get_next_selectable, if_neg h] using hgt
        · intro j hj hcj
          simp only [get_next_selectable, if_neg h]
          rcases List.mem_cons.mp hj with rfl | hjr
          · exact absurd hcj h
          · exact hleast j hjr hcj

theorem prev_selectable_aux_eq_of_all_ge (cur : Nat) (l : List Nat)
    (h : ∀ i ∈ l, cur ≤ i) : prev_selectable_aux cur l = cur := by
  induction l with
  | nil => rfl
  | cons i rest ih =>
    have hi : cur ≤ i := h i (by simp)
    have : ¬i < cur := Nat.not_lt.mpr hi
    simp only [prev_selectable_aux, if_neg this]
    exact ih fun j hj => h j (by simp [hj])

theorem prev_selectable_aux_greatest (cur : Nat) (l : List Nat)
    (hs : l.Pairwise (· > ·)) (hex : ∃ i, i ∈ l ∧ i < cur) :
    prev_selectable_aux cur l ∈ l ∧ prev_selectable_aux cur l < cur ∧
      ∀ j ∈ l, j < cur → j ≤ prev_selectable_aux cur l := by
  induction l with
  | nil => rcases hex with ⟨i, hi, _⟩; cases hi
  | cons i rest ih =>
    rcases List.pairwise_cons.mp hs with ⟨hgt, hrest⟩
    by_cases h : i < cur
    · refine ⟨by simp [prev_selectable_aux, h], by simp [prev_selectable_aux, h, h], ?_⟩
      intro j hj _
      simp only [prev_selectable_aux, if_pos h]
      rcases List.mem_cons.mp hj with rfl | hjr
      · exact Nat.le_refl j
      · exact Nat.le_of_lt (hgt j hjr)
    · rcases hex with ⟨i0, hi0, hcur0⟩
      rcases List.mem_cons.mp hi0 with rfl | hi0r
      · exact absurd hcur0 h
      · rcases ih hrest ⟨i0, hi0r, hcur0⟩ with ⟨hmem, hlt, hgreat⟩
        refine ⟨?_, ?_, ?_⟩
        · simp only [prev_selectable_aux, if_neg h]
          exact List.mem_cons_of_mem i hmem
        · simpa only [prev_selectable_aux, if_neg h] using hlt
        · intro j hj hcj
          simp only [prev_selectable_aux, if_neg h]
          rcases List.mem_cons.mp hj with rfl | hjr
          · exact absurd hcj h
          · exact hgreat j hjr hcj

/-- C3: on a sorted selectable list, move-down goes to the smallest selectable
index strictly above the cursor (unchanged if there is none), and move-up to
the largest strictly below it (unchanged if there is none): no wraparound. -/
theorem claim_C3_no_wraparound (cur : Nat) (sel : List Nat)
    (hs : List.Sorted (· < ·) sel) :
    ((∀ i ∈ sel, i ≤ cur) → get_next_selectable cur sel = cur) ∧
    ((∃ i, i ∈ sel ∧ cur < i) →
       get_next_selectable cur sel ∈ sel ∧ cur < get_next_selectable cur sel ∧
         ∀ j ∈ sel, cur < j → get_next_selectable cur sel ≤ j) ∧
    ((∀ i ∈ sel, cur ≤ i) → get_previous_selectable cur sel = cur) ∧
    ((∃ i, i ∈ sel ∧ i < cur) →
       get_previous_selectable cur sel ∈ sel ∧ get_previous_selectable cur sel < cur ∧
         ∀ j ∈ sel, j < cur → j ≤ get_previous_selectable cur sel) := by
  have hrev : sel.reverse.Pairwise (· > ·) := by
    rw [List.pairwise_reverse]
    exact hs
  refine ⟨get_next_selectable_eq_of_all_le cur sel,
          get_next_selectable_least cur sel hs, ?_, ?_⟩
  · intro h
    exact prev_selectable_aux_eq_of_all_ge cur sel.reverse
      fun i hi => h i (List.mem_reverse.mp hi)
  · rintro ⟨i, hi, hcur⟩
    rcases prev_selectable_aux_greatest cur sel.reverse hrev
        ⟨i, List.mem_reverse.mpr hi, hcur⟩ with ⟨hmem, hlt, hgreat⟩
    exact ⟨List.mem_reverse.mp hmem, hlt,
      fun j hj hcj => hgreat j (List.mem_reverse.mpr hj) hcj⟩

theorem claim_C3_no_wraparound_witness :
    get_next_selectable 4 [0, 2, 4] = 4 ∧ get_previous_selectable 0 [0, 2, 4] = 0 := by
  have h := claim_C3_no_wraparound 4 [0, 2, 4] (by decide)
  have h0 := claim_C3_no_wraparound 0 [0, 2, 4] (by decide)
  exact ⟨h.1 (by decide), h0.2.2.1 (by decide)⟩

theorem keep_eq_some (now : Nat) (subs : Nat → Option String) (a : Assignment)
    (x : Assignment × Bool) (h : keep now subs a = some x) :
    x.1 = a ∧ a.is_quiz_assignment = false ∧
      (parse_date a.due_at = none ∨ ∃ t, parse_date a.due_at = some t ∧ now < t) := by
  unfold keep at h
  split at h
  next hq => cases h
  next hq =>
    split at h
    next hd =>
      cases h
      exact ⟨rfl, by simpa using hq, Or.inl hd⟩
    next t hd =>
      split at h
      next hlt =>
        cases h
        exact ⟨rfl, by simpa using hq, Or.inr ⟨t, hd, hlt⟩⟩
      next hlt => cases h

/-- C4: quiz assignments are dropped, exactly the rows with an absent or
strictly-future due date are kept, the output is sorted by the
(missing-last, ascending-due) key order, and the spec's four-assignment
example produces exactly [future, no-due]. -/
theorem claim_C4_assignment_filtering :
    (∀ (resp : Option (Nat × List Assignment)) (now : Nat)
       (subs : Nat → Option String),
       ∀ x ∈ get_assignments resp now subs,
         x.1.is_quiz_assignment = false ∧
           (parse_date x.1.due_at = none ∨
             ∃ t, parse_date x.1.due_at = some t ∧ now < t)) ∧
    (∀ (l : List Assignment) (now : Nat) (subs : Nat → Option String),
       List.Perm (get_assignments (some (200, l)) now subs)
         (l.filterMap (keep now subs))) ∧
    (∀ (resp : Option (Nat × List Assignment)) (now : Nat)
       (subs : Nat → Option String),
       (get_assignments resp now subs).Pairwise assignmentLE) ∧
    get_assignments (some (200, [exNoDue, exPast, exFuture, exQuiz]))
        exampleNow (fun _ => none) =
      [(exFuture, false), (exNoDue, false)] := by
  refine ⟨?_, ?_, ?_, by decide⟩
  · intro resp now subs x hx
    match resp with
    | none => cases hx
    | some (status, l) =>
      by_cases hst : status = 200
      · simp only [get_assignments, if_pos hst] at hx
        have hx2 : x ∈ l.filterMap (keep now subs) :=
          (List.perm_insertionSort assignmentLE _).mem_iff.mp hx
        rcases List.mem_filterMap.mp hx2 with ⟨a, _, hk⟩
        rcases keep_eq_some now subs a x hk with ⟨hxa, hq, hdue⟩
        rw [hxa]
        exact ⟨hq, hdue⟩
      · simp [get_assignments, hst] at hx
  · intro l now subs
    simpa [get_assignments] using List.perm_insertionSort assignmentLE (l.filterMap (keep now subs))
  · intro resp now subs
    match resp with
    | none => simp [get_assignments]
    | some (status, l) =>
      by_cases hst : status = 200
      · simp only [get_assignments, if_pos hst]
        exact List.sorted_insertionSort assignmentLE (l.filterMap (keep now subs))
      · simp [get_assignments, hst]

theorem claim_C4_assignment_filtering_witness :
    ((exFuture, false) : Assignment × Bool).1.is_quiz_assignment = false ∧
      (parse_date ((exFuture, false) : Assignment × Bool).1.due_at = none ∨
        ∃ t, parse_date ((exFuture, false) : Assignment × Bool).1.due_at = some t ∧
          exampleNow < t) :=
  claim_C4_assignment_filtering.1 (some (200, [exNoDue, exPast, exFuture, exQuiz]))
    exampleNow (fun _ => none) (exFuture, false) (by decide)

/-- C10: the confirmation prompt is enabled by default — an absent file,
malformed JSON, or a missing key all leave `confirm_submit` true. -/
theorem claim_C10_confirm_default :
    load_settings .absent = true ∧ load_settings .badJson = true ∧
      load_settings (.parsed none) = true := by
  decide

theorem data_prefix_append (p s t : String) (h : p.data <+: s.data) :
    p.data <+: (s ++ t).data := by
  rw [String.data_append]
  exact h.trans (List.prefix_append s.data t.data)

theorem append_ne_empty_left (s t : String) (h : s ≠ "") : s ++ t ≠ "" := by
  intro hc
  apply h
  have hd : s.data ++ t.data = [] := by rw [← String.data_append, hc]
  rcases List.append_eq_nil.mp hd with ⟨hs, _⟩
  exact String.ext hs

/-! ### Run lemmas: the exact result and trace of each terminal branch. -/

theorem submit_run_ticket_none (env : NetEnv) (cid aid : Nat) (fp : String)
    (h1 : env.stage1 = none) :
    submit_file_assignment env cid aid fp =
      ((false, "Failed to get upload URL. Status: N/A, Response: No response"),
        [ticketRequestEvent env cid aid fp]) := by
  simp [submit_file_assignment, make_request, h1, ticketRequestEvent]

theorem submit_run_ticket_status (env : NetEnv) (cid aid : Nat) (fp : String)
    (r1 : Response) (h1 : env.stage1 = some r1) (hst : r1.status ≠ 200) :
    submit_file_assignment env cid aid fp =
      ((false, "Failed to get upload URL. Status: " ++ toString r1.status ++
          ", Response: " ++ r1.text),
        [ticketRequestEvent env cid aid fp]) := by
  simp [submit_file_assignment, make_request, h1, hst, ticketRequestEvent]

theorem submit_run_no_url (env : NetEnv) (cid aid : Nat) (fp : String)
    (r1 : Response) (h1 : env.stage1 = some r1) (hst : r1.status = 200)
    (hj : r1.json_error = none) (hu : truthyStr r1.upload_url = false) :
    submit_file_assignment env cid aid fp =
      ((false, "Upload URL not found in response. Response: " ++ r1.text),
        [ticketRequestEvent env cid aid fp]) := by
  simp [submit_file_assignment, make_request, h1, hst, hj, hu, ticketRequestEvent]

theorem submit_run_open_error (env : NetEnv) (cid aid : Nat) (fp : String)
    (r1 : Response) (e : String) (h1 : env.stage1 = some r1)
    (hst : r1.status = 200) (hj : r1.json_error = none)
    (hu : truthyStr r1.upload_url = true) (hf : env.file_open_error = some e) :
    submit_file_assignment env cid aid fp =
      ((false, "An error occurred during file submission: " ++ e),
        [ticketRequestEvent env cid aid fp]) := by
  simp [submit_file_assignment, make_request, h1, hst, hj, hu, hf, ticketRequestEvent]

theorem submit_run_post_error (env : NetEnv) (cid aid : Nat) (fp : String)
    (r1 : Response) (e : String) (h1 : env.stage1 = some r1)
    (hst : r1.status = 200) (hj : r1.json_error = none)
    (hu : truthyStr r1.upload_url = true) (hf : env.file_open_error = none)
    (h2 : env.stage2 = .error e) :
    submit_file_assignment env cid aid fp =
      ((false, "An error occurred during file submission: " ++ e),
        [ticketRequestEvent env cid aid fp, uploadPostEvent r1 env fp]) := by
  simp [submit_file_assignment, make_request, h1, hst, hj, hu, hf, h2,
    ticketRequestEvent]

theorem submit_run_upload_status (env : NetEnv) (cid aid : Nat) (fp : String)
    (r1 r2 : Response) (h1 : env.stage1 = some r1) (hst : r1.status = 200)
    (hj : r1.json_error = none) (hu : truthyStr r1.upload_url = true)
    (hf : env.file_open_error = none) (h2 : env.stage2 = .ok r2)
    (hst2 : r2.status ≠ 201) :
    submit_file_assignment env cid aid fp =
      ((false, "File upload failed. Status: " ++ toString r2.status ++
          ", Response: " ++ r2.text),
        [ticketRequestEvent env cid aid fp, uploadPostEvent r1 env fp]) := by
  simp [submit_file_assignment, make_request, h1, hst, hj, hu, hf, h2, hst2,
    ticketRequestEvent]

theorem submit_run_no_file_id (env : NetEnv) (cid aid : Nat) (fp : String)
    (r1 r2 : Response) (h1 : env.stage1 = some r1) (hst : r1.status = 200)
    (hj : r1.json_error = none) (hu : truthyStr r1.upload_url = true)
    (hf : env.file_open_error = none) (h2 : env.stage2 = .ok r2)
    (hst2 : r2.status = 201) (hj2 : r2.json_error = none)
    (hid : truthyId r2.file_id = false) :
    submit_file_assignment env cid aid fp =
      ((false, "File ID not found in upload response. Response: " ++ r2.text),
        [ticketRequestEvent env cid aid fp, uploadPostEvent r1 env fp]) := by
  simp [submit_file_assignment, make_request, h1, hst, hj, hu, hf, h2, hst2,
    hj2, hid, ticketRequestEvent]

/-- Every run's trace is the ticket request, optionally followed by the raw
upload post, optionally followed by the registration request — in that
order. -/
theorem submit_trace_shape (env : NetEnv) (cid aid : Nat) (fp : String) :
    (submit_file_assignment env cid aid fp).2 = [ticketRequestEvent env cid aid fp] ∨
    ∃ r1, env.stage1 = some r1 ∧
      ((submit_file_assignment env cid aid fp).2 =
         [ticketRequestEvent env cid aid fp, uploadPostEvent r1 env fp] ∨
       ∃ r2, env.stage2 = .ok r2 ∧
         (submit_file_assignment env cid aid fp).2 =
           [ticketRequestEvent env cid aid fp, uploadPostEvent r1 env fp,
             registerEvent env cid aid (r2.file_id.getD 0)]) := by
  cases h1 : env.stage1 with
  | none =>
    exact Or.inl (by rw [submit_run_ticket_none env cid aid fp h1])
  | some r1 =>
    by_cases hst : r1.status = 200
    · cases hj : r1.json_error with
      | some e =>
        exact Or.inl
          (by simp [submit_file_assignment, make_request, h1, hst, hj, ticketRequestEvent])
      | none =>
        cases hu : truthyStr r1.upload_url with
        | false =>
          exact Or.inl (by rw [submit_run_no_url env cid aid fp r1 h1 hst hj hu])
        | true =>
          cases hf : env.file_open_error with
          | some e =>
            exact Or.inl (by rw [submit_run_open_error env cid aid fp r1 e h1 hst hj hu hf])
          | none =>
            cases h2 : env.stage2 with
            | error e =>
              exact Or.inr ⟨r1, rfl, Or.inl
                (by rw [submit_run_post_error env cid aid fp r1 e h1 hst hj hu hf h2])⟩
            | ok r2 =>
              by_cases hst2 : r2.status = 201
              · cases hj2 : r2.json_error with
                | some e =>
                  exact Or.inr ⟨r1, rfl, Or.inl
                    (by simp [submit_file_assignment, make_request, h1, hst, hj, hu,
                        hf, h2, hst2, hj2, ticketRequestEvent])⟩
                | none =>
                  cases hid : truthyId r2.file_id with
                  | false =>
                    exact Or.inr ⟨r1, rfl, Or.inl
                      (by rw [submit_run_no_file_id env cid aid fp r1 r2 h1 hst hj hu
                          hf h2 hst2 hj2 hid])⟩
                  | true =>
                    refine Or.inr ⟨r1, rfl, Or.inr ⟨r2, rfl, ?_⟩⟩
                    cases h3 : env.stage3 with
                    | none =>
                      simp [submit_file_assignment, make_request, h1, hst, hj, hu,
                        hf, h2, hst2, hj2, hid, h3, ticketRequestEvent, registerEvent]
                    | some r3 =>
                      by_cases hst3 : r3.status = 201
                      · simp [submit_file_assignment, make_request, h1, hst, hj, hu,
                          hf, h2, hst2, hj2, hid, h3, hst3, ticketRequestEvent,
                          registerEvent]
                      · simp [submit_file_assignment, make_request, h1, hst, hj, hu,
                          hf, h2, hst2, hj2, hid, h3, hst3, ticketRequestEvent,
                          registerEvent]
              · exact Or.inr ⟨r1, rfl, Or.inl
                  (by rw [submit_run_upload_status env cid aid fp r1 r2 h1 hst hj hu
                      hf h2 hst2])⟩
    · exact Or.inl (by rw [submit_run_ticket_status env cid aid fp r1 h1 hst])

theorem submit_run_ticket_json_error (env : NetEnv) (cid aid : Nat) (fp : String)
    (r1 : Response) (e : String) (h1 : env.stage1 = some r1)
    (hst : r1.status = 200) (hj : r1.json_error = some e) :
    submit_file_assignment env cid aid fp =
      ((false, "An error occurred during file submission: " ++ e),
        [ticketRequestEvent env cid aid fp]) := by
  simp [submit_file_assignment, make_request, h1, hst, hj, ticketRequestEvent]

theorem submit_run_upload_json_error (env : NetEnv) (cid aid : Nat) (fp : String)
    (r1 r2 : Response) (e : String) (h1 : env.stage1 = some r1)
    (hst : r1.status = 200) (hj : r1.json_error = none)
    (hu : truthyStr r1.upload_url = true) (hf : env.file_open_error = none)
    (h2 : env.stage2 = .ok r2) (hst2 : r2.status = 201)
    (hj2 : r2.json_error = some e) :
    submit_file_assignment env cid aid fp =
      ((false, "An error occurred during file submission: " ++ e),
        [ticketRequestEvent env cid aid fp, uploadPostEvent r1 env fp]) := by
  simp [submit_file_assignment, make_request, h1, hst, hj, hu, hf, h2, hst2,
    hj2, ticketRequestEvent]

theorem submit_run_register_none (env : NetEnv) (cid aid : Nat) (fp : String)
    (r1 r2 : Response) (h1 : env.stage1 = some r1) (hst : r1.status = 200)
    (hj : r1.json_error = none) (hu : truthyStr r1.upload_url = true)
    (hf : env.file_open_error = none) (h2 : env.stage2 = .ok r2)
    (hst2 : r2.status = 201) (hj2 : r2.json_error = none)
    (hid : truthyId r2.file_id = true) (h3 : env.stage3 = none) :
    submit_file_assignment env cid aid fp =
      ((false, "Assignment submission failed. Status: N/A, Response: No response"),
        [ticketRequestEvent env cid aid fp, uploadPostEvent r1 env fp,
          registerEvent env cid aid (r2.file_id.getD 0)]) := by
  simp [submit_file_assignment, make_request, h1, hst, hj, hu, hf, h2, hst2,
    hj2, hid, h3, ticketRequestEvent, registerEvent]

theorem submit_run_register_status (env : NetEnv) (cid aid : Nat) (fp : String)
    (r1 r2 r3 : Response) (h1 : env.stage1 = some r1) (hst : r1.status = 200)
    (hj : r1.json_error = none) (hu : truthyStr r1.upload_url = true)
    (hf : env.file_open_error = none) (h2 : env.stage2 = .ok r2)
    (hst2 : r2.status = 201) (hj2 : r2.json_error = none)
    (hid : truthyId r2.file_id = true) (h3 : env.stage3 = some r3)
    (hst3 : r3.status ≠ 201) :
    submit_file_assignment env cid aid fp =
      ((false, "Assignment submission failed. Status: " ++ toString r3.status ++
          ", Response: " ++ r3.text),
        [ticketRequestEvent env cid aid fp, uploadPostEvent r1 env fp,
          registerEvent env cid aid (r2.file_id.getD 0)]) := by
  simp [submit_file_assignment, make_request, h1, hst, hj, hu, hf, h2, hst2,
    hj2, hid, h3, hst3, ticketRequestEvent, registerEvent]

theorem submit_run_success (env : NetEnv) (cid aid : Nat) (fp : String)
    (r1 r2 r3 : Response) (h1 : env.stage1 = some r1) (hst : r1.status = 200)
    (hj : r1.json_error = none) (hu : truthyStr r1.upload_url = true)
    (hf : env.file_open_error = none) (h2 : env.stage2 = .ok r2)
    (hst2 : r2.status = 201) (hj2 : r2.json_error = none)
    (hid : truthyId r2.file_id = true) (h3 : env.stage3 = some r3)
    (hst3 : r3.status = 201) :
    submit_file_assignment env cid aid fp =
      ((true, "File uploaded and assignment submitted successfully!"),
        [ticketRequestEvent env cid aid fp, uploadPostEvent r1 env fp,
          registerEvent env cid aid (r2.file_id.getD 0)]) := by
  simp [submit_file_assignment, make_request, h1, hst, hj, hu, hf, h2, hst2,
    hj2, hid, h3, hst3, ticketRequestEvent, registerEvent]

/-- No branch of the submission workflow shows a dialog: prompts can only be
added by `upload_file`. -/
theorem submit_no_prompt (env : NetEnv) (cid aid : Nat) (fp : String) :
    ∀ m, Event.prompt m ∉ (submit_file_assignment env cid aid fp).2 := by
  intro m hm
  rcases submit_trace_shape env cid aid fp with h | ⟨r1, h1, h | ⟨r2, h2, h⟩⟩ <;>
    rw [h] at hm <;>
    simp [ticketRequestEvent, uploadPostEvent, registerEvent] at hm

theorem submit_message_ne_empty (env : NetEnv) (cid aid : Nat) (fp : String) :
    (submit_file_assignment env cid aid fp).1.2 ≠ "" := by
  cases h1 : env.stage1 with
  | none =>
    rw [submit_run_ticket_none env cid aid fp h1]
    exact (by decide : ("Failed to get upload URL. Status: N/A, Response: No response" : String) ≠ "")
  | some r1 =>
    by_cases hst : r1.status = 200
    · cases hj : r1.json_error with
      | some e =>
        rw [submit_run_ticket_json_error env cid aid fp r1 e h1 hst hj]
        exact append_ne_empty_left _ e (by decide)
      | none =>
        cases hu : truthyStr r1.upload_url with
        | false =>
          rw [submit_run_no_url env cid aid fp r1 h1 hst hj hu]
          exact append_ne_empty_left _ r1.text (by decide)
        | true =>
          cases hf : env.file_open_error with
          | some e =>
            rw [submit_run_open_error env cid aid fp r1 e h1 hst hj hu hf]
            exact append_ne_empty_left _ e (by decide)
          | none =>
            cases h2 : env.stage2 with
            | error e =>
              rw [submit_run_post_error env cid aid fp r1 e h1 hst hj hu hf h2]
              exact append_ne_empty_left _ e (by decide)
            | ok r2 =>
              by_cases hst2 : r2.status = 201
              · cases hj2 : r2.json_error with
                | some e =>
                  rw [submit_run_upload_json_error env cid aid fp r1 r2 e h1 hst hj
                    hu hf h2 hst2 hj2]
                  exact append_ne_empty_left _ e (by decide)
                | none =>
                  cases hid : truthyId r2.file_id with
                  | false =>
                    rw [submit_run_no_file_id env cid aid fp r1 r2 h1 hst hj hu hf
                      h2 hst2 hj2 hid]
                    exact append_ne_empty_left _ r2.text (by decide)
                  | true =>
                    cases h3 : env.stage3 with
                    | none =>
                      rw [submit_run_register_none env cid aid fp r1 r2 h1 hst hj hu
                        hf h2 hst2 hj2 hid h3]
                      exact (by decide : ("Assignment submission failed. Status: N/A, Response: No response" : String) ≠ "")
                    | some r3 =>
                      by_cases hst3 : r3.status = 201
                      · rw [submit_run_success env cid aid fp r1 r2 r3 h1 hst hj hu
                          hf h2 hst2 hj2 hid h3 hst3]
                        exact (by decide : ("File uploaded and assignment submitted successfully!" : String) ≠ "")
                      · rw [submit_run_register_status env cid aid fp r1 r2 r3 h1 hst
                          hj hu hf h2 hst2 hj2 hid h3 hst3]
                        exact append_ne_empty_left _ r3.text
                          (append_ne_empty_left _ ", Response: "
                            (append_ne_empty_left _ (toString r3.status) (by decide)))
              · rw [submit_run_upload_status env cid aid fp r1 r2 h1 hst hj hu hf h2 hst2]
                exact append_ne_empty_left _ r2.text
                  (append_ne_empty_left _ ", Response: "
                    (append_ne_empty_left _ (toString r2.status) (by decide)))
    · rw [submit_run_ticket_status env cid aid fp r1 h1 hst]
      exact append_ne_empty_left _ r1.text
        (append_ne_empty_left _ ", Response: "
          (append_ne_empty_left _ (toString r1.status) (by decide)))

/-- C1: a stage-1 failure (no response, non-200 status, or a body without a
truthy upload URL) yields a `Failed("ticket")` result and the trace contains
neither the raw upload post nor the registration call; a stage-2 failure
(non-201 status or no truthy file id) yields `Failed("upload")` and the trace
contains no registration call. -/
theorem claim_C1_staged_failures (env : NetEnv) (cid aid : Nat) (fp : String) :
    ((env.stage1 = none ∨ ∃ r1, env.stage1 = some r1 ∧
        (r1.status ≠ 200 ∨ (r1.json_error = none ∧ truthyStr r1.upload_url = false))) →
      (submit_file_assignment env cid aid fp).1.1 = false ∧
      ticketFailureMsg (submit_file_assignment env cid aid fp).1.2 ∧
      (∀ e ∈ (submit_file_assignment env cid aid fp).2, isUploadPost e = false) ∧
      (∀ e ∈ (submit_file_assignment env cid aid fp).2, isRegisterCall e = false)) ∧
    (∀ r1 r2 : Response, env.stage1 = some r1 → r1.status = 200 →
      r1.json_error = none → truthyStr r1.upload_url = true →
      env.file_open_error = none → env.stage2 = .ok r2 →
      (r2.status ≠ 201 ∨ (r2.json_error = none ∧ truthyId r2.file_id = false)) →
      (submit_file_assignment env cid aid fp).1.1 = false ∧
      uploadFailureMsg (submit_file_assignment env cid aid fp).1.2 ∧
      (∀ e ∈ (submit_file_assignment env cid aid fp).2, isRegisterCall e = false)) := by
  constructor
  · rintro (h1 | ⟨r1, h1, hst | ⟨hj, hu⟩⟩)
    · rw [submit_run_ticket_none env cid aid fp h1]
      refine ⟨rfl, Or.inl (by
        exact (by decide : ("Failed to get upload URL" : String).data <+:
          ("Failed to get upload URL. Status: N/A, Response: No response" : String).data)),
        ?_, ?_⟩ <;>
        · intro e he
          simp at he
          subst he
          rfl
    · rw [submit_run_ticket_status env cid aid fp r1 h1 hst]
      refine ⟨rfl, Or.inl (data_prefix_append _ _ r1.text
        (data_prefix_append _ _ ", Response: "
          (data_prefix_append _ _ (toString r1.status) (by decide)))), ?_, ?_⟩ <;>
        · intro e he
          simp at he
          subst he
          rfl
    · by_cases hst : r1.status = 200
      · rw [submit_run_no_url env cid aid fp r1 h1 hst hj hu]
        exact ⟨rfl, Or.inr (data_prefix_append _ _ r1.text (by decide)), by
          intro e he; simp at he; subst he; rfl, by
          intro e he; simp at he; subst he; rfl⟩
      · rw [submit_run_ticket_status env cid aid fp r1 h1 hst]
        exact ⟨rfl, Or.inl (data_prefix_append _ _ r1.text
          (data_prefix_append _ _ ", Response: "
            (data_prefix_append _ _ (toString r1.status) (by decide)))), by
          intro e he; simp at he; subst he; rfl, by
          intro e he; simp at he; subst he; rfl⟩
  · intro r1 r2 h1 hst hj hu hf h2 hbad
    rcases hbad with hst2 | ⟨hj2, hid⟩
    · rw [submit_run_upload_status env cid aid fp r1 r2 h1 hst hj hu hf h2 hst2]
      refine ⟨rfl, Or.inl (data_prefix_append _ _ r2.text
        (data_prefix_append _ _ ", Response: "
          (data_prefix_append _ _ (toString r2.status) (by decide)))), ?_⟩
      intro e he
      simp at he
      rcases he with he | he <;> subst he <;> rfl
    · by_cases hst2 : r2.status = 201
      · rw [submit_run_no_file_id env cid aid fp r1 r2 h1 hst hj hu hf h2 hst2 hj2 hid]
        refine ⟨rfl, Or.inr (data_prefix_append _ _ r2.text (by decide)), ?_⟩
        intro e he
        simp at he
        rcases he with he | he <;> subst he <;> rfl
      · rw [submit_run_upload_status env cid aid fp r1 r2 h1 hst hj hu hf h2 hst2]
        refine ⟨rfl, Or.inl (data_prefix_append _ _ r2.text
          (data_prefix_append _ _ ", Response: "
            (data_prefix_append _ _ (toString r2.status) (by decide)))), ?_⟩
        intro e he
        simp at he
        rcases he with he | he <;> subst he <;> rfl

/-- C9: `submit_file_assignment` always returns a `(success, message)` pair
with a non-empty message, and exceptions during the stages — opening the file
or the raw upload post raising — become `(False, wrapped message)` results
instead of escaping. -/
theorem claim_C9_total_interface (env : NetEnv) (cid aid : Nat) (fp : String) :
    (submit_file_assignment env cid aid fp).1.2 ≠ "" ∧
    (∀ r1 : Response, env.stage1 = some r1 → r1.status = 200 →
      r1.json_error = none → truthyStr r1.upload_url = true →
      ∀ e, env.file_open_error = some e →
        (submit_file_assignment env cid aid fp).1 =
          (false, "An error occurred during file submission: " ++ e)) ∧
    (∀ r1 : Response, env.stage1 = some r1 → r1.status = 200 →
      r1.json_error = none → truthyStr r1.upload_url = true →
      env.file_open_error = none → ∀ e, env.stage2 = .error e →
        (submit_file_assignment env cid aid fp).1 =
          (false, "An error occurred during file submission: " ++ e)) := by
  refine ⟨submit_message_ne_empty env cid aid fp, ?_, ?_⟩
  · intro r1 h1 hst hj hu e hf
    rw [submit_run_open_error env cid aid fp r1 e h1 hst hj hu hf]
  · intro r1 h1 hst hj hu hf e h2
    rw [submit_run_post_error env cid aid fp r1 e h1 hst hj hu hf h2]

/-- C8: the stage-1 request is the first call of every run and carries exactly
the file's basename, its byte size, and the content type inferred from the
extension; the inference defaults to application/octet-stream when
`mimetypes.guess_type` recognizes nothing. -/
theorem claim_C8_ticket_metadata (env : NetEnv) (cid aid : Nat) (fp : String) :
    ((submit_file_assignment env cid aid fp).2.head? =
      some (Event.api "POST" (API_BASE_URL ++ "/" ++ files_endpoint cid aid)
        (some ("Bearer " ++ env.token))
        (.fileMeta (basename fp) env.file_size
          (get_content_type env.guess_type fp)))) ∧
    (∀ (guess : String → Option String) (p : String), guess p = none →
      get_content_type guess p = "application/octet-stream") ∧
    (∀ (guess : String → Option String) (p c : String), guess p = some c →
      get_content_type guess p = c) := by
  refine ⟨?_, ?_, ?_⟩
  · rcases submit_trace_shape env cid aid fp with h | ⟨r1, h1, h | ⟨r2, h2, h⟩⟩ <;>
      rw [h] <;> rfl
  · intro g p h
    simp [get_content_type, h]
  · intro g p c h
    simp [get_content_type, h]

/-- C6: the stage-2 upload post goes to the ticket's URL with the ticket's
own parameters and carries no Authorization header, while every call routed
through `_make_request` — in the workflow trace and in general — carries the
session's bearer header. -/
theorem claim_C6_upload_unauthenticated (env : NetEnv) (cid aid : Nat) (fp : String) :
    (∀ e ∈ (submit_file_assignment env cid aid fp).2,
      (∀ u ps fn ct au, e = .rawPost u ps fn ct au →
        au = none ∧ ∃ r1, env.stage1 = some r1 ∧
          u = r1.upload_url.getD "" ∧ ps = r1.upload_params) ∧
      (∀ method url au pl, e = .api method url au pl →
        au = some ("Bearer " ++ env.token))) ∧
    (∀ (token method endpoint : String) (pl : Payload) (resp : Option Response),
      (make_request token method endpoint pl resp).2 =
        .api method (API_BASE_URL ++ "/" ++ endpoint)
          (some ("Bearer " ++ token)) pl) := by
  constructor
  · intro e he
    rcases submit_trace_shape env cid aid fp with h | ⟨r1, h1, h | ⟨r2, h2, h⟩⟩ <;>
      rw [h] at he <;> simp at he
    · subst he
      constructor
      · intro u ps fn ct au hc
        simp [ticketRequestEvent] at hc
      · intro method url au pl hc
        unfold ticketRequestEvent at hc
        injection hc with _ _ h3 _
        exact h3.symm
    · rcases he with he | he <;> subst he
      · constructor
        · intro u ps fn ct au hc
          simp [ticketRequestEvent] at hc
        · intro method url au pl hc
          unfold ticketRequestEvent at hc
          injection hc with _ _ h3 _
          exact h3.symm
      · constructor
        · intro u ps fn ct au hc
          unfold uploadPostEvent at hc
          injection hc with hu hp _ _ ha
          exact ⟨ha.symm, r1, h1, hu.symm, hp.symm⟩
        · intro method url au pl hc
          simp [uploadPostEvent] at hc
    · rcases he with he | he | he <;> subst he
      · constructor
        · intro u ps fn ct au hc
          simp [ticketRequestEvent] at hc
        · intro method url au pl hc
          unfold ticketRequestEvent at hc
          injection hc with _ _ h3 _
          exact h3.symm
      · constructor
        · intro u ps fn ct au hc
          unfold uploadPostEvent at hc
          injection hc with hu hp _ _ ha
          exact ⟨ha.symm, r1, h1, hu.symm, hp.symm⟩
        · intro method url au pl hc
          simp [uploadPostEvent] at hc
      · constructor
        · intro u ps fn ct au hc
          simp [registerEvent] at hc
        · intro method url au pl hc
          unfold registerEvent at hc
          injection hc with _ _ h3 _
          exact h3.symm
  · intro token method endpoint pl resp
    rfl

/-- C5: with `confirm_submit = false` the upload runs the submission directly
and no prompt event ever occurs; with `confirm_submit = true` the prompt
naming the file and the assignment precedes every call, and declining it
produces the cancelled outcome with no stage executed. -/
theorem claim_C5_confirm_gate (fp : String) (ans : Bool) (env : NetEnv)
    (a : AssignmentRef) :
    ((upload_file false (some fp) ans env a).2 =
      (submit_file_assignment env a.course_id a.id fp).2) ∧
    (∀ m, Event.prompt m ∉ (upload_file false (some fp) ans env a).2) ∧
    ((upload_file false (some fp) ans env a).2.head? =
      some (ticketRequestEvent env a.course_id a.id fp)) ∧
    ((upload_file true (some fp) true env a).2 =
      .prompt (confirm_message fp a.name) ::
        (submit_file_assignment env a.course_id a.id fp).2) ∧
    (upload_file true (some fp) false env a =
      (.cancelled, [.prompt (confirm_message fp a.name)])) := by
  rcases hq : submit_file_assignment env a.course_id a.id fp with ⟨⟨s, m⟩, tr⟩
  have htr : (submit_file_assignment env a.course_id a.id fp).2 = tr := by rw [hq]
  refine ⟨by simp [upload_file, hq], ?_, ?_, by simp [upload_file, hq], by simp [upload_file]⟩
  · intro m0 hm0
    have hnp := submit_no_prompt env a.course_id a.id fp m0
    rw [htr] at hnp
    simp [upload_file, hq] at hm0
    exact hnp hm0
  · have hhead : (submit_file_assignment env a.course_id a.id fp).2.head? =
        some (ticketRequestEvent env a.course_id a.id fp) := by
      rcases submit_trace_shape env a.course_id a.id fp with h | ⟨r1, h1, h | ⟨r2, h2, h⟩⟩ <;>
        rw [h] <;> rfl
    rw [htr] at hhead
    simp [upload_file, hq]
    rw [← hhead]

theorem claim_C1_staged_failures_witness :
    (submit_file_assignment envW 1 2 "a/b.txt").1.1 = false ∧
    ticketFailureMsg (submit_file_assignment envW 1 2 "a/b.txt").1.2 ∧
    (∀ e ∈ (submit_file_assignment envW 1 2 "a/b.txt").2, isUploadPost e = false) ∧
    (∀ e ∈ (submit_file_assignment envW 1 2 "a/b.txt").2, isRegisterCall e = false) :=
  (claim_C1_staged_failures envW 1 2 "a/b.txt").1 (Or.inl rfl)

theorem claim_C9_total_interface_witness :
    (submit_file_assignment envOpenFail 1 2 "hw.txt").1 =
      (false, "An error occurred during file submission: " ++ "boom") :=
  (claim_C9_total_interface envOpenFail 1 2 "hw.txt").2.1 r1W rfl rfl rfl
    (by decide) "boom" rfl

theorem claim_C8_ticket_metadata_witness :
    get_content_type (fun _ => none) "data.bin" = "application/octet-stream" :=
  (claim_C8_ticket_metadata envW 1 2 "x").2.1 (fun _ => none) "data.bin" rfl

theorem claim_C6_upload_unauthenticated_witness :
    (∀ u ps fn ct au,
      ticketRequestEvent envW 1 2 "f.txt" = .rawPost u ps fn ct au →
        au = none ∧ ∃ r1, envW.stage1 = some r1 ∧
          u = r1.upload_url.getD "" ∧ ps = r1.upload_params) ∧
    (∀ method url au pl,
      ticketRequestEvent envW 1 2 "f.txt" = .api method url au pl →
        au = some ("Bearer " ++ envW.token)) :=
  (claim_C6_upload_unauthenticated envW 1 2 "f.txt").1
    (ticketRequestEvent envW 1 2 "f.txt")
    (by rw [submit_run_ticket_none envW 1 2 "f.txt" rfl]; exact List.mem_singleton.mpr rfl)

theorem claim_C5_confirm_gate_witness :
    upload_file true (some "a/hw.txt") false envW aW =
      (.cancelled, [.prompt (confirm_message "a/hw.txt" aW.name)]) :=
  (claim_C5_confirm_gate "a/hw.txt" false envW aW).2.2.2.2

end CanvasMD
